import Mathlib

/-!
Shallow embedding of `quota.py` (maniaclab/connect-quota-v3) and proofs about it.

The embedding models the pure computational content of the script:

* `Report.filter_full`, `Report.check_last_mailed`, `Report.mail` (class `Report`),
* `Quota.read_all_quotas`, `Quota.read_xfs_quota`, `Quota.read_ceph_quota` (class `Quota`),
* the `__main__` block up to and including the quota-collection loop.

External effects are modelled as explicit inputs: the stdout of `/bin/quota` is a
`CmdResult`, the ceph xattr lookup is a `CephSource`, the marker file's mtime is an
`Option Int`, environment variables are `Option String`.  Python exceptions are
values of `PyErr`; a function that can raise returns `Except PyErr _`.  Python
`float` percentages are idealised as exact rationals, with Python's 2-decimal
`round` modelled as round-half-to-even (`rhe`/`round2`).
-/

/-- Python exception classes that the embedded code can raise. -/
inductive PyErr where
  | typeError
  | keyError
  | indexError
  | valueError
  | nameError
  deriving DecidableEq, Repr

/-- Test whether the character list `cs` begins with `pre`. -/
def startsWithChars : List Char → List Char → Bool
  | _, [] => true
  | [], _ :: _ => false
  | c :: cs, d :: ds => c == d && startsWithChars cs ds

/-- Python `needle in hay` on strings: contiguous substring test
(used by `read_all_quotas` for the dispatch on the filesystem kind). -/
def containsChars : List Char → List Char → Bool
  | [], needle => needle.isEmpty
  | c :: cs, needle => startsWithChars (c :: cs) needle || containsChars cs needle

/-- Python `str.strip()`: drop leading and trailing whitespace. -/
def stripChars (cs : List Char) : List Char :=
  ((cs.dropWhile Char.isWhitespace).reverse.dropWhile Char.isWhitespace).reverse

/-- Python `s.replace("*", "")`: XFS marks full filesystems with asterisks,
which `read_xfs_quota` deletes before parsing. -/
def removeStars (cs : List Char) : List Char :=
  cs.filter (fun c => c ≠ '*')

/-- Python `str.split(sep)` for a one-character separator: always returns a
non-empty list; no colon in the input gives a single-element result. -/
def splitOnChar (sep : Char) : List Char → List (List Char)
  | [] => [[]]
  | c :: rest =>
    let r := splitOnChar sep rest
    if c == sep then [] :: r
    else
      match r with
      | [] => [[c]]
      | h :: t => (c :: h) :: t

/-- Python `str.split()` with no argument: split on runs of whitespace,
discarding empty pieces. -/
def splitWsChar : List Char → List (List Char)
  | [] => []
  | c :: rest =>
    if c.isWhitespace then splitWsChar rest
    else
      match splitWsChar rest with
      | [] => [[c]]
      | h :: t =>
        match rest with
        | [] => [[c]]
        | d :: _ => if d.isWhitespace then [c] :: h :: t else (c :: h) :: t

/-- Decimal digits to a natural number; `none` on a non-digit. -/
def digitsValAux : List Char → Nat → Option Nat
  | [], acc => some acc
  | c :: cs, acc => if c.isDigit then digitsValAux cs (acc * 10 + (c.toNat - 48)) else none

/-- Python `int(s)`: optional surrounding whitespace, optional sign, at least
one digit; anything else raises `ValueError`, modelled as `none`. -/
def pyInt (cs0 : List Char) : Option Int :=
  let cs := stripChars cs0
  match cs with
  | [] => none
  | '-' :: rest =>
    if rest.isEmpty then none
    else (digitsValAux rest 0).map (fun n => -(n : Int))
  | '+' :: rest =>
    if rest.isEmpty then none
    else (digitsValAux rest 0).map (fun n => (n : Int))
  | _ => (digitsValAux cs 0).map (fun n => (n : Int))

/-- Python `int(t)` over a token list, stopping at the first bad token
(the list comprehension `[int(x) for x in stripped.split()]`). -/
def pyIntList : List (List Char) → Option (List Int)
  | [] => some []
  | t :: ts =>
    match pyInt t, pyIntList ts with
    | some v, some vs => some (v :: vs)
    | _, _ => none

/-- Python `str.upper()` (ASCII suffices for the logging-level names). -/
def pyUpper (s : String) : String := String.mk (s.toList.map Char.toUpper)

/-- Round half to even, the tie-breaking rule of Python 3's `round`. -/
def rhe (x : ℚ) : ℤ :=
  let f : ℤ := ⌊x⌋
  let r : ℚ := x - (f : ℚ)
  if r < 1/2 then f
  else if 1/2 < r then f + 1
  else if f % 2 = 0 then f else f + 1

/-- Python `round(x, 2)` on the idealised exact rational value. -/
def round2 (x : ℚ) : ℚ := ((rhe (x * 100) : ℤ) : ℚ) / 100

/-- The canonical quota dictionary built by `read_xfs_quota` / `read_ceph_quota`.
Both readers populate every key, so keys are plain fields; the nullable
percentage fields are `Option ℚ` (`none` is Python `None`). -/
structure QuotaRec where
  user : String
  path : String
  filesystem : String
  blocks_used : Int
  blocks_soft : Int
  blocks_hard : Int
  blocks_days : Option Int
  files_used : Int
  files_soft : Int
  files_hard : Int
  files_days : Option Int
  blocks_pct : Option ℚ
  files_pct : Option ℚ
  deriving DecidableEq, Repr

/-- `Report.filter_full(quotas, key)`, specialised to a field selector.
The records produced by both readers always carry the key, so the
`except KeyError` branch of the source is unreachable here; when the stored
value is `None`, the Python 3 comparison `q[key] > 100` raises `TypeError`,
which that handler does not catch. -/
def filter_full (sel : QuotaRec → Option ℚ) : List QuotaRec → Except PyErr (List QuotaRec)
  | [] => Except.ok []
  | q :: rest =>
    match sel q with
    | none => Except.error PyErr.typeError
    | some v =>
      match filter_full sel rest with
      | Except.error e => Except.error e
      | Except.ok tail => Except.ok (if 100 < v then q :: tail else tail)

/-- One week in seconds, the notification cooldown window. -/
def week : Int := 604800

/-- `Report.check_last_mailed(user)`.  The marker file `/home/user/.quota` is
modelled by its mtime (`none` when the file does not exist).  When the file is
missing the source touches it, so its mtime becomes the current time.  The
result is the returned boolean paired with the marker's mtime after the call. -/
def check_last_mailed (marker : Option Int) (now : Int) : Bool × Int :=
  let last_modified : Int :=
    match marker with
    | none => now
    | some t => t
  let delta : Int := now - last_modified
  if week ≤ delta then (true, now) else (false, last_modified)

/-- Observable steps of a mail-sending path: the warning for a defaulted URL,
the error for a missing API key, and the HTTP POST with the credential used. -/
inductive MailAction where
  | logWarning
  | logError
  | post (url : String) (apiKey : Option String)
  deriving DecidableEq, Repr

/-- Whether a mail action is the HTTP POST that actually sends an email. -/
def MailAction.isPost : MailAction → Bool
  | MailAction.post _ _ => true
  | _ => false

/-- The two environment variables consulted by the mail paths. -/
structure MailEnv where
  mailgun_url : Option String
  mailgun_api_key : Option String
  deriving DecidableEq, Repr

/-- The hard-coded fallback endpoint used when `MAILGUN_URL` is unset. -/
def defaultMailgunUrl : String := "https://api.mailgun.net/v3/api.ci-connect.net/messages"

/-- `Report.mail(to, subject, body)`: warns on a missing URL, logs an error on
a missing API key, and then unconditionally performs the POST (the source has
no early return after the error). -/
def Report.mail (env : MailEnv) : List MailAction :=
  (if env.mailgun_url.isNone then [MailAction.logWarning] else []) ++
  (if env.mailgun_api_key.isNone then [MailAction.logError] else []) ++
  [MailAction.post (env.mailgun_url.getD defaultMailgunUrl) env.mailgun_api_key]

/-- The summary-mail branch of `__main__` (the `args.mailto` path): on a
missing API key it logs an error and calls `exit(1)` (second component
`some 1`) without posting; otherwise it posts. -/
def summaryMail (env : MailEnv) : List MailAction × Option Nat :=
  let warn := if env.mailgun_url.isNone then [MailAction.logWarning] else []
  match env.mailgun_api_key with
  | none => (warn ++ [MailAction.logError], some 1)
  | some key =>
    (warn ++ [MailAction.post (env.mailgun_url.getD defaultMailgunUrl) (some key)], none)

/-- Outcome of running `/bin/quota -w --hide-device -p -u user`: either the
executable is missing (`FileNotFoundError`) or it produced some stdout. -/
inductive CmdResult where
  | missing
  | output (s : String)
  deriving DecidableEq, Repr

/-- The parsing pipeline of `read_xfs_quota`: decode, `strip()`, delete
asterisks, split on newlines, take the last line. -/
def xfsLastLine (s : String) : List Char :=
  (splitOnChar '\n' (removeStars (stripChars s.toList))).getLastD []

/-- `[int(x) for x in stripped.split()]`: `none` models the `ValueError`
raised (and caught) on a non-numeric token. -/
def xfsTokens (s : String) : Option (List Int) :=
  pyIntList (splitWsChar (xfsLastLine s))

/-- The dictionary literal of `read_xfs_quota`, mapping the 8 positional
tokens; indexing `tokens[0]`..`tokens[7]` raises `IndexError` when fewer than
8 tokens are present.  Block quantities are scaled by the 1024-byte block
size; percentages are computed against the soft limits. -/
def xfsRecord (user path : String) (tokens : List Int) : Except PyErr QuotaRec :=
  match tokens with
  | t0 :: t1 :: t2 :: t3 :: t4 :: t5 :: t6 :: t7 :: _ =>
    Except.ok
      { user := user, path := path, filesystem := "xfs",
        blocks_used := t0 * 1024, blocks_soft := t1 * 1024, blocks_hard := t2 * 1024,
        blocks_days := some t3,
        files_used := t4, files_soft := t5, files_hard := t6, files_days := some t7,
        blocks_pct :=
          if 0 < t1 * 1024 then
            some (round2 (((t0 * 1024 : Int) : ℚ) / ((t1 * 1024 : Int) : ℚ) * 100))
          else none,
        files_pct :=
          if 0 < t5 then some (round2 ((t4 : ℚ) / (t5 : ℚ) * 100)) else none }
  | _ => Except.error PyErr.indexError

/-- `Quota.read_xfs_quota(user, path)`.  `FileNotFoundError` (missing
executable) and `ValueError` (non-numeric token) are caught and yield the
empty dict, modelled `Except.ok none`; the `IndexError` from indexing a short
token list is not caught and propagates (`Except.error`). -/
def read_xfs_quota (user path : String) (cmd : CmdResult) : Except PyErr (Option QuotaRec) :=
  match cmd with
  | CmdResult.missing => Except.ok none
  | CmdResult.output s =>
    match xfsTokens s with
    | none => Except.ok none
    | some tokens =>
      match xfsRecord user path tokens with
      | Except.error e => Except.error e
      | Except.ok q => Except.ok (some q)

/-- The four ceph extended-attribute values, as the raw strings handed to
`int(...)`. -/
structure CephAttrs where
  max_bytes : String
  rbytes : String
  max_files : String
  rfiles : String
  deriving DecidableEq, Repr

/-- Observable state of the per-user ceph directory: missing directory
(`os.stat` raises `FileNotFoundError`, caught, returns `None`), a missing
xattr key (`KeyError`, caught, returns the empty dict), or all four
attributes present. -/
inductive CephSource where
  | missingDir
  | missingKey
  | attrs (a : CephAttrs)
  deriving DecidableEq, Repr

/-- The dictionary literal of `read_ceph_quota`: the single configured limit
is copied into both the soft and the hard field, grace fields are `None`, and
percentages are computed against the hard limit. -/
def cephRecord (user path : String) (max_bytes rbytes max_files rfiles : Int) : QuotaRec :=
  { user := user, path := path, filesystem := "ceph",
    blocks_used := rbytes, blocks_soft := max_bytes, blocks_hard := max_bytes,
    blocks_days := none,
    files_used := rfiles, files_soft := max_files, files_hard := max_files,
    files_days := none,
    blocks_pct :=
      if 0 < max_bytes then some (round2 ((rbytes : ℚ) / (max_bytes : ℚ) * 100)) else none,
    files_pct :=
      if 0 < max_files then some (round2 ((rfiles : ℚ) / (max_files : ℚ) * 100)) else none }

/-- `Quota.read_ceph_quota(user, path)`: both failure returns (`None` and the
empty dict) are falsy at the call site and modelled `Except.ok none`; a
non-numeric attribute value raises `ValueError`, which nothing catches. -/
def read_ceph_quota (user path : String) (src : CephSource) : Except PyErr (Option QuotaRec) :=
  match src with
  | CephSource.missingDir => Except.ok none
  | CephSource.missingKey => Except.ok none
  | CephSource.attrs a =>
    match pyInt a.max_bytes.toList, pyInt a.rbytes.toList,
        pyInt a.max_files.toList, pyInt a.rfiles.toList with
    | some max_bytes, some rbytes, some max_files, some rfiles =>
      Except.ok (some (cephRecord user path max_bytes rbytes max_files rfiles))
    | _, _, _, _ => Except.error PyErr.valueError

/-- A backend-reader invocation, recorded for the invocation traces. -/
inductive ReaderCall where
  | xfs (user path : String)
  | ceph (user path : String)
  deriving DecidableEq, Repr

/-- The observable environment behind the two backend readers: the stdout of
`/bin/quota -u user` (which takes no path), and the ceph directory state for
each `(user, path)`. -/
structure Env where
  xfsCmd : String → CmdResult
  cephSrc : String → String → CephSource

/-- One iteration of the loop in `read_all_quotas`: split the target on the
colon (`s[1]` raises `IndexError` when there is no colon, before any reader
runs for this target), then dispatch on a substring match of the kind.
Returns the read result and the reader invocations performed. -/
def read_target (env : Env) (user p : String) : Except PyErr (Option QuotaRec) × List ReaderCall :=
  match splitOnChar ':' p.toList with
  | path :: fs :: _ =>
    if containsChars fs "xfs".toList then
      (read_xfs_quota user (String.mk path) (env.xfsCmd user), [ReaderCall.xfs user (String.mk path)])
    else if containsChars fs "ceph".toList then
      (read_ceph_quota user (String.mk path) (env.cephSrc user (String.mk path)),
        [ReaderCall.ceph user (String.mk path)])
    else (Except.ok none, [])
  | _ => (Except.error PyErr.indexError, [])

/-- `Quota.read_all_quotas(user, paths)`: truthy records are appended in
order; the `except IndexError` handler logs and re-raises the same exception
class, and other exceptions propagate unchanged, so every error aborts the
whole call and discards the accumulated list.  The second component is the
trace of backend-reader invocations that did occur. -/
def read_all_quotas (env : Env) (user : String) :
    List String → Except PyErr (List QuotaRec) × List ReaderCall
  | [] => (Except.ok [], [])
  | p :: rest =>
    match read_target env user p with
    | (Except.error e, calls) => (Except.error e, calls)
    | (Except.ok q, calls) =>
      match read_all_quotas env user rest with
      | (Except.error e, calls2) => (Except.error e, calls ++ calls2)
      | (Except.ok qs, calls2) =>
        (Except.ok (match q with | some r => r :: qs | none => qs), calls ++ calls2)

/-- The command-line arguments that influence the collection prefix of
`__main__` (report/format/mail flags only matter after collection). -/
structure Args where
  user : Option (List String)
  all_users : Bool
  log : Option String
  path : Option (List String)
  deriving Repr

/-- Result of the `__main__` prefix: an explicit `exit(code)`, an uncaught
exception, or completed collection with the gathered records. -/
inductive MainOutcome where
  | exited (code : Nat)
  | uncaught (e : PyErr)
  | completed (records : List QuotaRec)
  deriving DecidableEq, Repr

/-- The process exit status determined so far: CPython terminates with status
1 when an exception escapes `__main__`; a completed collection exits later. -/
def processStatus : MainOutcome → Option Nat
  | MainOutcome.exited c => some c
  | MainOutcome.uncaught _ => some 1
  | MainOutcome.completed _ => none

/-- The integer-valued attributes of the `logging` module that
`getattr(logging, loglevel.upper(), None)` can find. -/
def loggingLevelNames : List String :=
  ["CRITICAL", "FATAL", "ERROR", "WARN", "WARNING", "INFO", "DEBUG", "NOTSET"]

/-- The collection loop of `__main__`: `for u in user: quota.extend(...)`
wrapped in a bare `except: raise`, so reader exceptions propagate. -/
def main_collect_loop (env : Env) (paths : List String) :
    List String → MainOutcome × List ReaderCall
  | [] => (MainOutcome.completed [], [])
  | u :: rest =>
    match read_all_quotas env u paths with
    | (Except.error e, calls) => (MainOutcome.uncaught e, calls)
    | (Except.ok qs, calls) =>
      match main_collect_loop env paths rest with
      | (MainOutcome.completed qs2, calls2) => (MainOutcome.completed (qs ++ qs2), calls ++ calls2)
      | (out, calls2) => (out, calls ++ calls2)

/-- The `__main__` prefix through the collection loop: missing `--path` exits
1; an unknown `--log` level raises before collection (the source even names
the undefined variable `log`, so a `NameError` escapes); the user list is
resolved; then `if os.geteuid() is not 0: if args.user is not None: sys.exit(1)`
— the privilege check tests only whether `--user` was supplied. -/
def main_collect (env : Env) (euid : Nat) (currentUser : String) (allUsers : List String)
    (args : Args) : MainOutcome × List ReaderCall :=
  match args.path with
  | none => (MainOutcome.exited 1, [])
  | some paths =>
    if loggingLevelNames.contains (pyUpper (args.log.getD "ERROR")) then
      let users : List String :=
        if args.all_users then allUsers
        else
          match args.user with
          | none => [currentUser]
          | some us => us
      if euid ≠ 0 ∧ args.user.isSome then (MainOutcome.exited 1, [])
      else main_collect_loop env paths users
    else (MainOutcome.uncaught PyErr.nameError, [])

/-- A record with a null percentage, exactly as `read_xfs_quota` produces it
for a user with no limits configured (all-zero quota line). -/
def nullPctRecord : QuotaRec :=
  { user := "alice", path := "/home", filesystem := "xfs",
    blocks_used := 0, blocks_soft := 0, blocks_hard := 0, blocks_days := some 0,
    files_used := 0, files_soft := 0, files_hard := 0, files_days := some 0,
    blocks_pct := none, files_pct := none }

/-- The record produced for the spec's sample line "100 200 300 0 5 10 20 0". -/
def xfsSampleRec : QuotaRec :=
  { user := "alice", path := "/home", filesystem := "xfs",
    blocks_used := 102400, blocks_soft := 204800, blocks_hard := 307200,
    blocks_days := some 0,
    files_used := 5, files_soft := 10, files_hard := 20, files_days := some 0,
    blocks_pct := some (round2 ((102400 : ℚ) / 204800 * 100)),
    files_pct := some (round2 ((5 : ℚ) / 10 * 100)) }

/-- A concrete ceph attribute set: 500 of 1000 bytes, 5 of 10 files. -/
def cephSampleAttrs : CephAttrs :=
  { max_bytes := "1000", rbytes := "500", max_files := "10", rfiles := "5" }

/-- The record `read_ceph_quota` builds from `cephSampleAttrs`. -/
def cephSampleRec : QuotaRec :=
  { user := "alice", path := "/public", filesystem := "ceph",
    blocks_used := 500, blocks_soft := 1000, blocks_hard := 1000, blocks_days := none,
    files_used := 5, files_soft := 10, files_hard := 10, files_days := none,
    blocks_pct := some (round2 ((500 : ℚ) / 1000 * 100)),
    files_pct := some (round2 ((5 : ℚ) / 10 * 100)) }

/-- An environment whose xfs reader always yields the sample line and whose
ceph directories are missing. -/
def envXfsOk : Env where
  xfsCmd := fun _ => CmdResult.output "100 200 300 0 5 10 20 0"
  cephSrc := fun _ _ => CephSource.missingDir

/-- An environment in which every backend read fails softly. -/
def envEmpty : Env where
  xfsCmd := fun _ => CmdResult.missing
  cephSrc := fun _ _ => CephSource.missingDir

/-- Inversion for `xfsRecord`: a successful record determines the percentage
fields from the soft limits exactly as the source computes them. -/
theorem xfsRecord_pct (user path : String) (toks : List Int) (rec : QuotaRec)
    (h : xfsRecord user path toks = Except.ok rec) :
    (rec.blocks_pct = if 0 < rec.blocks_soft
        then some (round2 ((rec.blocks_used : ℚ) / (rec.blocks_soft : ℚ) * 100)) else none) ∧
    (rec.files_pct = if 0 < rec.files_soft
        then some (round2 ((rec.files_used : ℚ) / (rec.files_soft : ℚ) * 100)) else none) := by
  rcases toks with _ | ⟨t0, _ | ⟨t1, _ | ⟨t2, _ | ⟨t3, _ | ⟨t4, _ | ⟨t5, _ | ⟨t6, _ | ⟨t7, tl⟩⟩⟩⟩⟩⟩⟩⟩
  all_goals first
    | exact Except.noConfusion h
    | (injection h with h2; subst h2; exact ⟨rfl, rfl⟩)

/-- Fewer than 8 tokens make `xfsRecord` raise `IndexError`. -/
theorem xfsRecord_short (user path : String) (toks : List Int) (hlen : toks.length < 8) :
    xfsRecord user path toks = Except.error PyErr.indexError := by
  rcases toks with _ | ⟨t0, _ | ⟨t1, _ | ⟨t2, _ | ⟨t3, _ | ⟨t4, _ | ⟨t5, _ | ⟨t6, _ | ⟨t7, tl⟩⟩⟩⟩⟩⟩⟩⟩
  all_goals first
    | rfl
    | (exfalso; simp only [List.length_cons] at hlen; omega)

/-- Percentage characterisation lifted to `read_xfs_quota`. -/
theorem read_xfs_quota_pct (user path : String) (cmd : CmdResult) (rec : QuotaRec)
    (h : read_xfs_quota user path cmd = Except.ok (some rec)) :
    (rec.blocks_pct = if 0 < rec.blocks_soft
        then some (round2 ((rec.blocks_used : ℚ) / (rec.blocks_soft : ℚ) * 100)) else none) ∧
    (rec.files_pct = if 0 < rec.files_soft
        then some (round2 ((rec.files_used : ℚ) / (rec.files_soft : ℚ) * 100)) else none) := by
  cases cmd with
  | missing => exact Option.noConfusion (Except.ok.inj h)
  | output s =>
    simp only [read_xfs_quota] at h
    split at h
    · exact Option.noConfusion (Except.ok.inj h)
    · rename_i toks hx
      split at h
      · exact Except.noConfusion h
      · rename_i q hr
        have hq : q = rec := Option.some.inj (Except.ok.inj h)
        subst hq
        exact xfsRecord_pct user path toks q hr

/-- Inversion for `read_ceph_quota`: every successfully produced record is a
`cephRecord` for some parsed attribute values. -/
theorem read_ceph_quota_ok (user path : String) (src : CephSource) (rec : QuotaRec)
    (h : read_ceph_quota user path src = Except.ok (some rec)) :
    ∃ mb rb mf rf, rec = cephRecord user path mb rb mf rf := by
  cases src with
  | missingDir => exact Option.noConfusion (Except.ok.inj h)
  | missingKey => exact Option.noConfusion (Except.ok.inj h)
  | attrs a =>
    simp only [read_ceph_quota] at h
    split at h
    · rename_i mb rb mf rf e1 e2 e3 e4
      exact ⟨mb, rb, mf, rf, (Option.some.inj (Except.ok.inj h)).symm⟩
    · exact Except.noConfusion h

/-- A target with no colon makes `read_target` raise `IndexError` without
invoking any backend reader. -/
theorem read_target_no_colon (env : Env) (user p : String)
    (h : (splitOnChar ':' p.toList).length = 1) :
    read_target env user p = (Except.error PyErr.indexError, []) := by
  rcases hsp : splitOnChar ':' p.toList with _ | ⟨x, _ | ⟨y, rest⟩⟩
  · rw [hsp] at h; simp at h
  · unfold read_target
    rw [hsp]
  · rw [hsp] at h; simp at h

/-- With a malformed (colon-free) target in the batch and every earlier
target reading without raising, `read_all_quotas` raises `IndexError`, yields
no records, and the backend-reader trace is exactly the earlier targets'. -/
theorem read_all_quotas_malformed_aborts (env : Env) (user bad : String)
    (pre post : List String)
    (hbad : (splitOnChar ':' bad.toList).length = 1)
    (hpre : ∀ p ∈ pre, ∃ q calls, read_target env user p = (Except.ok q, calls)) :
    (read_all_quotas env user (pre ++ bad :: post)).1 = Except.error PyErr.indexError ∧
    (read_all_quotas env user (pre ++ bad :: post)).2 =
      (pre.map fun p => (read_target env user p).2).flatten := by
  induction pre with
  | nil =>
    have hb := read_target_no_colon env user bad hbad
    constructor
    · simp only [List.nil_append, read_all_quotas, hb]
    · simp only [List.nil_append, read_all_quotas, hb, List.map_nil, List.flatten_nil]
  | cons p pre2 ih =>
    obtain ⟨q, calls, hq⟩ := hpre p (List.mem_cons_self p pre2)
    have ih2 := ih (fun r hr => hpre r (List.mem_cons_of_mem p hr))
    rcases hR : read_all_quotas env user (pre2 ++ bad :: post) with ⟨res, calls2⟩
    rw [hR] at ih2
    have h1 : res = Except.error PyErr.indexError := ih2.1
    have h2 : calls2 = (pre2.map fun r => (read_target env user r).2).flatten := ih2.2
    subst h1
    subst h2
    constructor
    · simp only [List.cons_append, read_all_quotas, hq, List.append_eq, hR]
    · simp only [List.cons_append, read_all_quotas, hq, List.append_eq, hR, List.map_cons,
        List.flatten_cons]

/-- The privilege check of `__main__`: a non-zero effective UID together with
any `--user` argument leads to `sys.exit(1)` with no reader invocations (or,
for an invalid `--log` level, to the earlier uncaught exception). -/
theorem main_collect_user_flag (env : Env) (euid : Nat) (currentUser : String)
    (allUsers : List String) (args : Args) (us : List String)
    (h0 : euid ≠ 0) (h1 : args.user = some us) :
    main_collect env euid currentUser allUsers args = (MainOutcome.exited 1, []) ∨
    main_collect env euid currentUser allUsers args = (MainOutcome.uncaught PyErr.nameError, []) := by
  obtain ⟨auser, aall, alog, apath⟩ := args
  have h1b : auser = some us := h1
  subst h1b
  cases apath with
  | none => exact Or.inl rfl
  | some paths =>
    simp only [main_collect]
    split
    · rw [if_pos ⟨h0, rfl⟩]
      exact Or.inl rfl
    · exact Or.inr rfl

/-- C1: the claim says the over-quota filter never includes a record whose
blocks_pct is null and raises no error for it.  The code disagrees: for a
record with blocks_pct None — produced by `read_xfs_quota` for an all-zero
quota line — the Python 3 comparison raises an uncaught TypeError (only
KeyError is handled), aborting `filter_full` instead of skipping the record. -/
theorem filter_full_null_pct_raises :
    read_xfs_quota "alice" "/home" (CmdResult.output "0 0 0 0 0 0 0 0")
        = Except.ok (some nullPctRecord) ∧
    filter_full (fun q => q.blocks_pct) [nullPctRecord] = Except.error PyErr.typeError :=
  ⟨rfl, rfl⟩

/-- C2 counterexample: the claim says that with no cooldown marker
`check_last_mailed` returns true; on the code, the freshly touched marker is
zero seconds old, so the function returns false. -/
theorem check_last_mailed_absent_marker_cex :
    (check_last_mailed none 1000000).1 = false := rfl

/-- C2 amended: with no marker, `check_last_mailed` creates the marker
(timestamped now) and returns false; with a marker less than 7 days old it
returns false and leaves the timestamp; with a marker at least 7 days old it
returns true and updates the timestamp to now. -/
theorem check_last_mailed_behavior (marker : Option Int) (now : Int) :
    (marker = none → check_last_mailed marker now = (false, now)) ∧
    (∀ t, marker = some t → now - t < week → check_last_mailed marker now = (false, t)) ∧
    (∀ t, marker = some t → week ≤ now - t → check_last_mailed marker now = (true, now)) := by
  refine ⟨?_, ?_, ?_⟩
  · intro h
    subst h
    simp [check_last_mailed, week]
  · intro t ht hlt
    subst ht
    simp only [check_last_mailed]
    rw [if_neg (not_le.mpr hlt)]
  · intro t ht hge
    subst ht
    simp only [check_last_mailed]
    rw [if_pos hge]

/-- C2 witness: the three branches of the amended throttle behaviour at
concrete timestamps. -/
theorem check_last_mailed_behavior_witness :
    check_last_mailed none 5 = (false, 5) ∧
    check_last_mailed (some 4) 5 = (false, 4) ∧
    check_last_mailed (some 0) 604800 = (true, 604800) :=
  ⟨(check_last_mailed_behavior none 5).1 rfl,
   (check_last_mailed_behavior (some 4) 5).2.1 4 rfl (by norm_num [week]),
   (check_last_mailed_behavior (some 0) 604800).2.2 0 rfl (by norm_num [week])⟩

/-- C3 counterexample: the claim says a malformed target means no backend
reader is invoked for any target in the batch; on the code, the well-formed
target listed before the malformed one is read before the IndexError. -/
theorem read_all_quotas_reads_before_malformed_cex :
    (read_all_quotas envXfsOk "alice" ["/home:xfs", "badtarget"]).1
        = Except.error PyErr.indexError ∧
    (read_all_quotas envXfsOk "alice" ["/home:xfs", "badtarget"]).2
        = [ReaderCall.xfs "alice" "/home"] :=
  ⟨rfl, rfl⟩

/-- C3 witness: a concrete batch with one well-formed target before the
malformed one: collection raises IndexError, returns no records, and exactly
the earlier target was read. -/
theorem read_all_quotas_malformed_aborts_witness :
    (read_all_quotas envXfsOk "alice" ["/a:xfs", "nocolon", "/b:ceph"]).1
        = Except.error PyErr.indexError ∧
    (read_all_quotas envXfsOk "alice" ["/a:xfs", "nocolon", "/b:ceph"]).2
        = [ReaderCall.xfs "alice" "/a"] := by
  have h := read_all_quotas_malformed_aborts envXfsOk "alice" "nocolon" ["/a:xfs"] ["/b:ceph"]
    (by decide)
    (by
      intro p hp
      have hp2 : p = "/a:xfs" := by simpa using hp
      subst hp2
      exact ⟨_, _, rfl⟩)
  exact ⟨h.1, h.2.trans (by decide)⟩

/-- C4: in every record produced by the command-output reader the percentage
fields are round(used/soft*100, 2) for a positive soft limit and null
otherwise; the attribute-based reader computes them against the hard limit. -/
theorem pct_normalization :
    (∀ user path cmd rec, read_xfs_quota user path cmd = Except.ok (some rec) →
      (rec.blocks_pct = if 0 < rec.blocks_soft
          then some (round2 ((rec.blocks_used : ℚ) / (rec.blocks_soft : ℚ) * 100)) else none) ∧
      (rec.files_pct = if 0 < rec.files_soft
          then some (round2 ((rec.files_used : ℚ) / (rec.files_soft : ℚ) * 100)) else none)) ∧
    (∀ user path src rec, read_ceph_quota user path src = Except.ok (some rec) →
      (rec.blocks_pct = if 0 < rec.blocks_hard
          then some (round2 ((rec.blocks_used : ℚ) / (rec.blocks_hard : ℚ) * 100)) else none) ∧
      (rec.files_pct = if 0 < rec.files_hard
          then some (round2 ((rec.files_used : ℚ) / (rec.files_hard : ℚ) * 100)) else none)) :=
  ⟨fun user path cmd rec h => read_xfs_quota_pct user path cmd rec h,
   fun user path src rec h => by
    obtain ⟨mb, rb, mf, rf, hrec⟩ := read_ceph_quota_ok user path src rec h
    subst hrec
    exact ⟨rfl, rfl⟩⟩

/-- C4 witness: the percentage characterisation applied to one concrete
record from each reader. -/
theorem pct_normalization_witness :
    (xfsSampleRec.blocks_pct = if 0 < xfsSampleRec.blocks_soft
        then some (round2 ((xfsSampleRec.blocks_used : ℚ) / (xfsSampleRec.blocks_soft : ℚ) * 100))
        else none) ∧
    (cephSampleRec.blocks_pct = if 0 < cephSampleRec.blocks_hard
        then some (round2 ((cephSampleRec.blocks_used : ℚ) / (cephSampleRec.blocks_hard : ℚ) * 100))
        else none) :=
  ⟨(pct_normalization.1 "alice" "/home" (CmdResult.output "100 200 300 0 5 10 20 0")
      xfsSampleRec rfl).1,
   (pct_normalization.2 "alice" "/public" (CephSource.attrs cephSampleAttrs)
      cephSampleRec rfl).1⟩

/-- C5 counterexample: the claim says a last line shorter than 8 tokens is a
Failure for that target only; on the code, a short all-numeric line raises an
IndexError that is not caught inside `read_xfs_quota`. -/
theorem read_xfs_short_line_raises_cex :
    read_xfs_quota "alice" "/home" (CmdResult.output "1 2 3") = Except.error PyErr.indexError :=
  rfl

/-- C5 amended: a missing executable or a non-numeric token yields an empty
record for that target only, but a last line of fewer than 8 all-numeric
tokens raises IndexError, which is not caught and aborts the batch. -/
theorem read_xfs_failure_modes :
    (∀ user path, read_xfs_quota user path CmdResult.missing = Except.ok none) ∧
    (∀ user path s, xfsTokens s = none →
      read_xfs_quota user path (CmdResult.output s) = Except.ok none) ∧
    (∀ user path s toks, xfsTokens s = some toks → toks.length < 8 →
      read_xfs_quota user path (CmdResult.output s) = Except.error PyErr.indexError) := by
  refine ⟨fun u p => rfl, ?_, ?_⟩
  · intro u p s hx
    simp only [read_xfs_quota, hx]
  · intro u p s toks hx hlen
    simp only [read_xfs_quota, hx, xfsRecord_short u p toks hlen]

/-- C5 witness: the three failure modes at concrete outputs. -/
theorem read_xfs_failure_modes_witness :
    read_xfs_quota "u" "/p" CmdResult.missing = Except.ok none ∧
    read_xfs_quota "u" "/p" (CmdResult.output "abc def") = Except.ok none ∧
    read_xfs_quota "u" "/p" (CmdResult.output "7 8 9") = Except.error PyErr.indexError :=
  ⟨read_xfs_failure_modes.1 "u" "/p",
   read_xfs_failure_modes.2.1 "u" "/p" "abc def" rfl,
   read_xfs_failure_modes.2.2 "u" "/p" "7 8 9" [7, 8, 9] rfl (by decide)⟩

/-- C6: the sample line "100 200 300 0 5 10 20 0" (also with an asterisk
marker and a preceding header line, which are stripped) gives
blocks_used = 102400, blocks_soft = 204800 and blocks_pct = 50. -/
theorem xfs_sample_scenario :
    read_xfs_quota "alice" "/home" (CmdResult.output "100 200 300 0 5 10 20 0")
        = Except.ok (some xfsSampleRec) ∧
    read_xfs_quota "alice" "/home" (CmdResult.output "Filesystem blocks\n100* 200 300 0 5 10 20 0")
        = Except.ok (some xfsSampleRec) ∧
    xfsSampleRec.blocks_used = 102400 ∧ xfsSampleRec.blocks_soft = 204800 ∧
    xfsSampleRec.blocks_pct = some 50 := by
  refine ⟨rfl, rfl, rfl, rfl, ?_⟩
  show some (round2 ((102400 : ℚ) / 204800 * 100)) = some 50
  norm_num [round2, rhe]

/-- C7 counterexample: the claim says that with the API key absent no
mail-sending path sends; on the code, `Report.mail` logs the error and then
still performs the POST. -/
theorem report_mail_missing_key_posts_cex :
    Report.mail { mailgun_url := some "https://mg.example/send", mailgun_api_key := none } =
      [MailAction.logError, MailAction.post "https://mg.example/send" none] :=
  rfl

/-- C7 amended: with the API key absent, the summary-mail path reports the
error and exits 1 without posting, while `Report.mail` logs the error but
still attempts the POST with the absent credential. -/
theorem mail_missing_credential (env : MailEnv) (h : env.mailgun_api_key = none) :
    (summaryMail env).2 = some 1 ∧
    (summaryMail env).1.any MailAction.isPost = false ∧
    MailAction.logError ∈ Report.mail env ∧
    MailAction.post (env.mailgun_url.getD defaultMailgunUrl) none ∈ Report.mail env := by
  obtain ⟨url, key⟩ := env
  have hk : key = none := h
  subst hk
  cases url <;> simp [summaryMail, Report.mail, MailAction.isPost]

/-- C7 witness: the amended statement at the empty environment. -/
theorem mail_missing_credential_witness :
    (summaryMail { mailgun_url := none, mailgun_api_key := none }).2 = some 1 ∧
    (summaryMail { mailgun_url := none, mailgun_api_key := none }).1.any MailAction.isPost
        = false ∧
    MailAction.logError ∈ Report.mail { mailgun_url := none, mailgun_api_key := none } ∧
    MailAction.post defaultMailgunUrl none ∈
      Report.mail { mailgun_url := none, mailgun_api_key := none } :=
  mail_missing_credential { mailgun_url := none, mailgun_api_key := none } rfl

/-- C8: an unprivileged caller (euid ≠ 0) passing `--user` makes the program
terminate with status 1 with no backend-reader invocations and no records
collected (either via sys.exit(1), or — for an invalid `--log` — via the
uncaught exception raised even earlier, which also exits with status 1). -/
theorem unprivileged_user_flag_exits (env : Env) (euid : Nat) (currentUser : String)
    (allUsers : List String) (args : Args) (us : List String)
    (h0 : euid ≠ 0) (h1 : args.user = some us) :
    processStatus (main_collect env euid currentUser allUsers args).1 = some 1 ∧
    (main_collect env euid currentUser allUsers args).2 = [] := by
  rcases main_collect_user_flag env euid currentUser allUsers args us h0 h1 with h | h <;>
    rw [h] <;> exact ⟨rfl, rfl⟩

/-- C8 witness: a concrete unprivileged invocation with `--user carol`. -/
theorem unprivileged_user_flag_exits_witness :
    processStatus (main_collect envEmpty 1000 "bob" []
      { user := some ["carol"], all_users := false, log := none, path := some ["/home:xfs"] }).1
        = some 1 ∧
    (main_collect envEmpty 1000 "bob" []
      { user := some ["carol"], all_users := false, log := none, path := some ["/home:xfs"] }).2
        = [] :=
  unprivileged_user_flag_exits envEmpty 1000 "bob" []
    { user := some ["carol"], all_users := false, log := none, path := some ["/home:xfs"] }
    ["carol"] (by decide) rfl

/-- C9: every record the ceph reader produces copies the single configured
limit into both soft and hard fields and has null grace fields. -/
theorem ceph_record_limits (user path : String) (src : CephSource) (rec : QuotaRec)
    (h : read_ceph_quota user path src = Except.ok (some rec)) :
    rec.blocks_soft = rec.blocks_hard ∧ rec.files_soft = rec.files_hard ∧
    rec.blocks_days = none ∧ rec.files_days = none := by
  obtain ⟨mb, rb, mf, rf, hrec⟩ := read_ceph_quota_ok user path src rec h
  subst hrec
  exact ⟨rfl, rfl, rfl, rfl⟩

/-- C9 witness: the invariant at a concrete attribute set. -/
theorem ceph_record_limits_witness :
    cephSampleRec.blocks_soft = cephSampleRec.blocks_hard ∧
    cephSampleRec.files_soft = cephSampleRec.files_hard ∧
    cephSampleRec.blocks_days = none ∧ cephSampleRec.files_days = none :=
  ceph_record_limits "alice" "/public" (CephSource.attrs cephSampleAttrs) cephSampleRec rfl

/-- C10: the privilege check fires for an unprivileged caller on any `--user`
argument whatsoever — here even when the single requested name is the
caller's own account name — because it tests only whether `--user` was
supplied, never the requested identity. -/
theorem user_flag_check_ignores_identity (env : Env) (euid : Nat) (currentUser : String)
    (allUsers : List String) (args : Args)
    (h0 : euid ≠ 0) (h1 : args.user = some [currentUser]) :
    processStatus (main_collect env euid currentUser allUsers args).1 = some 1 ∧
    (main_collect env euid currentUser allUsers args).2 = [] := by
  rcases main_collect_user_flag env euid currentUser allUsers args [currentUser] h0 h1 with h | h <;>
    rw [h] <;> exact ⟨rfl, rfl⟩

/-- C10 witness: an unprivileged caller requesting their own account name
still exits with status 1 before any collection. -/
theorem user_flag_check_ignores_identity_witness :
    processStatus (main_collect envEmpty 1000 "bob" []
      { user := some ["bob"], all_users := false, log := none, path := some ["/home:xfs"] }).1
        = some 1 ∧
    (main_collect envEmpty 1000 "bob" []
      { user := some ["bob"], all_users := false, log := none, path := some ["/home:xfs"] }).2
        = [] :=
  user_flag_check_ignores_identity envEmpty 1000 "bob" []
    { user := some ["bob"], all_users := false, log := none, path := some ["/home:xfs"] }
    (by decide) rfl
